import Mathlib

/-!
Shallow embedding of `TileStache/Goodies/Providers/PatchMBtiles.py`:
an MBTiles tileset stored as a SQLite file with a `metadata` key/value
table and a `tiles` table keyed by `(zoom_level, tile_column, tile_row)`.

Tile payloads are opaque byte blobs, modelled as lists of naturals.
SQLite rows fetched with `fetchone()` become `Option`; a raised Python
exception becomes `Except.error`.  Each operation of the source opens its
own connection; a connection is modelled by the pair of the persisted
database state and the connection-local pending state, with `commit`
publishing the pending state and a close (or garbage collection) without
commit rolling the pending state back.
-/

namespace PatchMBtiles

/-- Tile payloads: opaque byte strings. -/
abbrev Bytes := List Nat

/-- Models `ModestMaps.Core.Coordinate(row, column, zoom)`: the external
(northern-origin) tile coordinate.  Rows and columns are Python ints
(modelled as `Int`); zoom levels are non-negative. -/
structure Coordinate where
  row : Int
  column : Int
  zoom : Nat
deriving DecidableEq, Repr

/-- The row transform `(2**zoom - 1) - row` applied at lines 128, 153,
166 and 176 of the source ("Hello, Paul Ramsey."), converting between the
northern-origin row and the stored (southern-origin) `tile_row`. -/
def toStoredRow (row : Int) (zoom : Nat) : Int :=
  2 ^ zoom - 1 - row

/-- The composite key `(zoom_level, tile_column, tile_row)` of the
`tiles` table. -/
abbrev TileKey := Nat × Int × Int

/-- Models `SELECT value FROM metadata WHERE name = key` followed by
`fetchone()`: the first row with the given name, if any.  The `metadata`
table has `PRIMARY KEY (name)`, so keys are unique. -/
def metaLookup (metadata : List (String × String)) (key : String) : Option String :=
  (metadata.find? (fun r => decide (r.1 = key))).map (fun r => r.2)

/-- Models `SELECT tile_data FROM tiles WHERE zoom_level=? AND tile_column=?
AND tile_row=?` followed by `fetchone()`.  The unique index `coord`
guarantees at most one matching row. -/
def tilesLookup (tiles : List (TileKey × Bytes)) (key : TileKey) : Option Bytes :=
  (tiles.find? (fun r => decide (r.1 = key))).map (fun r => r.2)

/-- Models `REPLACE INTO tiles (zoom_level, tile_column, tile_row, tile_data)
VALUES (?, ?, ?, ?)`: under the unique index on the key columns,
REPLACE deletes any conflicting row and inserts the new one. -/
def tilesReplace (tiles : List (TileKey × Bytes)) (key : TileKey) (content : Bytes) :
    List (TileKey × Bytes) :=
  (key, content) :: tiles.filter (fun r => decide (r.1 ≠ key))

/-- Models `DELETE FROM tiles WHERE zoom_level=? AND tile_column=? AND
tile_row=?`. -/
def tilesDelete (tiles : List (TileKey × Bytes)) (key : TileKey) :
    List (TileKey × Bytes) :=
  tiles.filter (fun r => decide (r.1 ≠ key))

/-- The contents of a tileset file that has the MBTiles schema: the
`metadata` key/value table and the `tiles` table. -/
structure TilesetState where
  metadata : List (String × String)
  tiles : List (TileKey × Bytes)
deriving DecidableEq, Repr

/-- The Python idiom `value and value[0] or None` applied to an optional
fetched text value: a missing row or an empty (falsy) string both
collapse to `None`. -/
def pyTruthyStr : Option String → Option String
  | none => none
  | some s => if s = "" then none else some s

/-- The Python idiom `content and content[0] or None` applied to an
optional fetched blob: a missing row or an empty (falsy) blob both
collapse to `None`. -/
def pyTruthyBytes : Option Bytes → Option Bytes
  | none => none
  | some b => if b = [] then none else some b

/-- The exceptions the source can raise, named after the error
taxonomy of the spec where it names them.  `unsupportedFormat` is the `Exception`
raised by `create_tileset`; `notFound` is the sqlite error raised when a
statement touches a table that does not exist (a write against a
non-bootstrapped tileset); `keyError` is a Python `KeyError` from a dict
lookup; `knownUnknown` is the exception raised by
`getTypeByExtension`, carrying the offending extension. -/
inductive Err where
  | unsupportedFormat (token : String)
  | notFound
  | keyError (key : Option String)
  | knownUnknown (token : String)
deriving DecidableEq, Repr

/-- The four format tokens accepted at line 63 of the source. -/
def supportedFormats : List String := ["png", "jpg", "json", "pbf"]

/-- Models `create_tileset(filename, name, type, version, description, format,
bounds=None)`: rejects formats outside the four-member set, otherwise
creates the two tables with the unique index and inserts the five
required metadata rows, plus `bounds` when supplied, and commits. -/
def create_tileset (name type_ version description format : String)
    (bounds : Option String) : Except Err TilesetState :=
  if format ∈ supportedFormats then
    .ok
      { metadata :=
          [("name", name), ("type", type_), ("version", version),
            ("description", description), ("format", format)] ++
          (match bounds with
            | some b => [("bounds", b)]
            | none => [])
        tiles := [] }
  else
    .error (.unsupportedFormat format)

/-- The `formats` dict of `get_tile` (lines 141-147): format token to
MIME type, with `None` mapping to `None`.  A token outside the keys of the
dict raises `KeyError`. -/
def formatsMime : Option String → Except Err (Option String)
  | none => .ok none
  | some "png" => .ok (some "image/png")
  | some "jpg" => .ok (some "image/jpeg")
  | some "json" => .ok (some "application/json")
  | some "pbf" => .ok (some "application/x-protobuf")
  | some s => .error (.keyError (some s))

/-- Follows the words of the spec: the FormatRegistry table of §4.2
mapping a format token to its MIME type, written from the spec for
comparison against the `formats` dict of the source. -/
def registryMime : String → Option String
  | "png" => some "image/png"
  | "jpg" => some "image/jpeg"
  | "json" => some "application/json"
  | "pbf" => some "application/x-protobuf"
  | _ => none

/-- A connection opened by `_connect`: the persisted database state it
was opened against, and the connection-local pending state its statements
act on. -/
structure Conn where
  persisted : TilesetState
  pending : TilesetState

/-- Models `_connect(filename)` against an existing tileset: pending state
starts equal to the persisted state. -/
def openConn (ts : TilesetState) : Conn :=
  { persisted := ts, pending := ts }

/-- Models `db.commit()`: publish the pending state. -/
def commitConn (c : Conn) : Conn :=
  { c with persisted := c.pending }

/-- Closing (or dropping) a connection: uncommitted changes are rolled
back, leaving the last committed persisted state. -/
def closeConn (c : Conn) : TilesetState :=
  c.persisted

/-- Models `get_tile(filename, coord)` (lines 133-158): reads the `format`
metadata row, maps it through the `formats` dict, then fetches the blob
at the stored key `(coord.zoom, coord.column, (2**coord.zoom - 1) -
coord.row)`; both the fetched format and the fetched blob pass through
`x and x[0] or None`. -/
def get_tile (ts : TilesetState) (coord : Coordinate) :
    Except Err (Option String × Option Bytes) :=
  let format := pyTruthyStr (metaLookup ts.metadata "format")
  match formatsMime format with
  | .error e => .error e
  | .ok mime_type =>
      let tile_row := toStoredRow coord.row coord.zoom
      let content :=
        pyTruthyBytes (tilesLookup ts.tiles (coord.zoom, coord.column, tile_row))
      .ok (mime_type, content)

/-- Models `delete_tile(filename, coord)` (lines 160-168): opens a connection,
executes the DELETE at the stored key, and returns without `commit()` or
`close()`; the connection is dropped and its uncommitted transaction
rolled back, so the function yields the persisted state unchanged. -/
def delete_tile (ts : TilesetState) (coord : Coordinate) : TilesetState :=
  let c := openConn ts
  let tile_row := toStoredRow coord.row coord.zoom
  let c := { c with pending := { c.pending with
    tiles := tilesDelete c.pending.tiles (coord.zoom, coord.column, tile_row) } }
  closeConn c

/-- Models `put_tile(filename, coord, content)` (lines 170-181).  When no
tileset was created at the path, `_connect` yields an empty database
with no `tiles` table and the REPLACE statement fails (the
`NotFoundError` of the spec); the store at such a path is modelled as `none`.
Otherwise the REPLACE upserts at the stored key and the function
commits and closes. -/
def put_tile (store : Option TilesetState) (coord : Coordinate) (content : Bytes) :
    Except Err TilesetState :=
  match store with
  | none => .error .notFound
  | some ts =>
      let c := openConn ts
      let tile_row := toStoredRow coord.row coord.zoom
      let c := { c with pending := { c.pending with
        tiles := tilesReplace c.pending.tiles (coord.zoom, coord.column, tile_row) content } }
      .ok (closeConn (commitConn c))

/-- Models `list_tiles(filename)` (lines 121-131): every stored row, its
`tile_row` converted back to a northern-origin row. -/
def list_tiles (ts : TilesetState) : List Coordinate :=
  ts.tiles.map (fun r => { row := toStoredRow r.1.2.2 r.1.1, column := r.1.2.1, zoom := r.1.1 })

/-- The `TileResponse` wrapper (lines 237-253): an encoder name (`None`
when the tileset declares no format) and the raw content. -/
structure TileResponse where
  format : Option String
  content : Option Bytes
deriving DecidableEq, Repr

/-- The `formats` dict of `Provider.renderTile` (lines 210-214): MIME
type to encoder name.  Only `image/png`, `image/jpeg` and `None` are
keys; any other MIME type raises `KeyError`. -/
def renderFormats : Option String → Except Err (Option String)
  | none => .ok none
  | some "image/png" => .ok (some "PNG")
  | some "image/jpeg" => .ok (some "JPG")
  | some s => .error (.keyError (some s))

/-- Models `Provider.renderTile(self, width, height, srs, coord)` (lines
206-215); `width`, `height` and `srs` are unused by the source body and
omitted here. -/
def renderTile (ts : TilesetState) (coord : Coordinate) : Except Err TileResponse :=
  match get_tile ts coord with
  | .error e => .error e
  | .ok (mime_type, content) =>
      match renderFormats mime_type with
      | .error e => .error e
      | .ok fmt => .ok { format := fmt, content := content }

/-- ASCII lowering of one character, as the Python `str.lower()` does
on the ASCII range the extensions of the source live in. -/
def lowerChar (c : Char) : Char :=
  if 'A' ≤ c ∧ c ≤ 'Z' then Char.ofNat (c.toNat + 32) else c

/-- Models `extension.lower()` of Python on ASCII strings. -/
def pyLower (s : String) : String :=
  ⟨s.data.map lowerChar⟩

/-- Models `Provider.getTypeByExtension(self, extension)` (lines 217-235). -/
def getTypeByExtension (extension : String) : Except Err (String × String) :=
  if pyLower extension = "json" then .ok ("application/json", "JSON")
  else if pyLower extension = "png" then .ok ("image/png", "PNG")
  else if pyLower extension = "jpg" then .ok ("image/jpg", "JPEG")
  else if pyLower extension = "pbf" then .ok ("application/x-protobuf", "PBF")
  else .error (.knownUnknown extension)

/-- The tileset with the record at the stored key derived from `coord`
removed: the state an absent record is compared against. -/
def eraseRecord (ts : TilesetState) (coord : Coordinate) : TilesetState :=
  { ts with
    tiles := tilesDelete ts.tiles (coord.zoom, coord.column, toStoredRow coord.row coord.zoom) }

/-- Tileset states reachable through the lifecycle of this module:
created by `create_tileset` and evolved by `put_tile` and
`delete_tile`. -/
inductive Reachable : TilesetState → Prop where
  | created (name type_ version description format : String) (bounds : Option String)
      (ts : TilesetState) :
      create_tileset name type_ version description format bounds = .ok ts → Reachable ts
  | put (ts : TilesetState) (coord : Coordinate) (content : Bytes) (ts' : TilesetState) :
      Reachable ts → put_tile (some ts) coord content = .ok ts' → Reachable ts'
  | del (ts : TilesetState) (coord : Coordinate) :
      Reachable ts → Reachable (delete_tile ts coord)

deriving instance DecidableEq for Except

/-- The tileset produced by
`create_tileset(path, "n", "baselayer", "0", "", "pbf")`. -/
def tsPbf : TilesetState :=
  { metadata :=
      [("name", "n"), ("type", "baselayer"), ("version", "0"),
        ("description", ""), ("format", "pbf")]
    tiles := [] }

/-- State `tsPbf` after `put_tile` of payload `[1, 2]` at coordinate
`(row 0, column 0, zoom 0)`. -/
def tsPbfPut : TilesetState :=
  { tsPbf with tiles := [((0, 0, 0), [1, 2])] }

/-- A tileset declaring format `jpg` and holding payload `[7]` at
coordinate `(row 0, column 0, zoom 0)`. -/
def tsJpgPut : TilesetState :=
  { metadata :=
      [("name", "n"), ("type", "baselayer"), ("version", "0"),
        ("description", ""), ("format", "jpg")]
    tiles := [((0, 0, 0), [7])] }

/-- State `tsPbf` holding the empty payload at coordinate
`(row 0, column 0, zoom 0)`. -/
def tsPbfEmptyTile : TilesetState :=
  { tsPbf with tiles := [((0, 0, 0), [])] }

/-- A tileset declaring format `png` with no stored tiles. -/
def tsPng : TilesetState :=
  { metadata :=
      [("name", "n"), ("type", "baselayer"), ("version", "0"),
        ("description", ""), ("format", "png")]
    tiles := [] }

/-- Claim C5: for every `zoom ≥ 0` and `0 ≤ row < 2^zoom`, the row transform
`toStoredRow(row, zoom) = 2^zoom - 1 - row` applied twice with the same
zoom returns the original row (the transform is an involution). -/
theorem toStoredRow_involution (zoom : Nat) (row : Int)
    (h0 : 0 ≤ row) (h1 : row < 2 ^ zoom) :
    toStoredRow (toStoredRow row zoom) zoom = row := by
  unfold toStoredRow
  ring

/-- Witness for C5 at `zoom = 3`, `row = 5`. -/
theorem toStoredRow_involution_witness :
    (0 : Int) ≤ 5 ∧ (5 : Int) < 2 ^ 3 ∧ toStoredRow (toStoredRow 5 3) 3 = 5 :=
  ⟨by decide, by decide, toStoredRow_involution 3 5 (by decide) (by decide)⟩

/-- Claim C8: `put_tile` against a path where no tileset was created fails
with the `NotFoundError` of the spec (the REPLACE statement finds no `tiles`
table) instead of succeeding or creating the storage. -/
theorem put_tile_no_tileset_fails (coord : Coordinate) (content : Bytes) :
    put_tile none coord content = .error .notFound :=
  rfl

/-- Claim C9: `delete_tile` executes its DELETE on the connection it opened
but never commits, so the persisted tileset — what any subsequent
operation opening its own connection observes — is unchanged. -/
theorem delete_tile_never_persists (ts : TilesetState) (coord : Coordinate) :
    delete_tile ts coord = ts ∧
    ∀ c, get_tile (delete_tile ts coord) c = get_tile ts c :=
  ⟨rfl, fun _ => rfl⟩

/-- Claim C4 diverges on the code: `getTypeByExtension` maps `jpg`
(case-insensitively) to MIME type `image/jpg`, not the `image/jpeg` of
the FormatRegistry table; other extensions are accepted or rejected as
the claim says, the rejection naming the offending token. -/
theorem getTypeByExtension_jpg_mime :
    getTypeByExtension "jpg" = .ok ("image/jpg", "JPEG") ∧
    getTypeByExtension "JPG" = .ok ("image/jpg", "JPEG") ∧
    "image/jpg" ≠ "image/jpeg" ∧
    getTypeByExtension "png" = .ok ("image/png", "PNG") ∧
    getTypeByExtension "json" = .ok ("application/json", "JSON") ∧
    getTypeByExtension "pbf" = .ok ("application/x-protobuf", "PBF") ∧
    getTypeByExtension "gif" = .error (.knownUnknown "gif") := by
  refine ⟨by decide, by decide, by decide, by decide, by decide, by decide, by decide⟩

/-- Claim C3 diverges on the code: `renderTile` labels an `image/jpeg` tile
with encoder name `JPG`, not the `JPEG` of the FormatRegistry table (and
of the documentation of `TileResponse` itself); it raises `KeyError` for a `pbf`
tileset instead of using encoder `PBF`; and for an absent tile of a
`png` tileset it returns the declared encoder with no payload, not a
null encoder. -/
theorem renderTile_divergences :
    renderTile tsJpgPut { row := 0, column := 0, zoom := 0 } =
      .ok { format := some "JPG", content := some [7] } ∧
    (some "JPG" : Option String) ≠ some "JPEG" ∧
    renderTile tsPbfPut { row := 0, column := 0, zoom := 0 } =
      .error (.keyError (some "application/x-protobuf")) ∧
    renderTile tsPng { row := 0, column := 0, zoom := 0 } =
      .ok { format := some "PNG", content := none } := by
  refine ⟨rfl, by decide, rfl, rfl⟩

theorem supported_mime (f : String) (hsupp : f ∈ supportedFormats) :
    f ≠ "" ∧ formatsMime (some f) = .ok (registryMime f) ∧ ∃ m, registryMime f = some m := by
  fin_cases hsupp
  · exact ⟨by decide, by decide, "image/png", by decide⟩
  · exact ⟨by decide, by decide, "image/jpeg", by decide⟩
  · exact ⟨by decide, by decide, "application/json", by decide⟩
  · exact ⟨by decide, by decide, "application/x-protobuf", by decide⟩

theorem tilesLookup_replace_self (tiles : List (TileKey × Bytes)) (k : TileKey) (B : Bytes) :
    tilesLookup (tilesReplace tiles k B) k = some B := by
  simp [tilesLookup, tilesReplace, List.find?]

theorem tilesLookup_delete_self (tiles : List (TileKey × Bytes)) (k : TileKey) :
    tilesLookup (tilesDelete tiles k) k = none := by
  induction tiles with
  | nil => rfl
  | cons hd tl ih =>
      by_cases hk : hd.1 = k
      · simpa [tilesDelete, List.filter_cons, hk] using ih
      · simp only [tilesDelete, List.filter_cons] at ih ⊢
        simp only [tilesLookup, List.find?] at ih ⊢
        simp [hk, ih]

/-- Claim C2 amended: on a coordinate with no stored record, `get_tile`
returns an ordinary `(mime_type, None)` pair — the MIME type resolved
from the `format` metadata of the tileset (which is `None` only when that
metadata row is absent or empty) together with a `None` payload. -/
theorem get_tile_absent (ts : TilesetState) (coord : Coordinate) (m : Option String)
    (hm : formatsMime (pyTruthyStr (metaLookup ts.metadata "format")) = .ok m)
    (ht : tilesLookup ts.tiles
      (coord.zoom, coord.column, toStoredRow coord.row coord.zoom) = none) :
    get_tile ts coord = .ok (m, none) := by
  simp only [get_tile]
  rw [hm, ht]
  rfl

/-- Claim C2 as stated is false: a freshly created `pbf` tileset has no stored
record at `(row 0, column 0, zoom 0)`, yet `get_tile` returns the
declared MIME type with the null payload, not `(None, None)`. -/
theorem get_tile_absent_counterexample :
    get_tile tsPbf { row := 0, column := 0, zoom := 0 } =
      .ok (some "application/x-protobuf", none) ∧
    get_tile tsPbf { row := 0, column := 0, zoom := 0 } ≠
      .ok (none, none) := by
  constructor
  · decide
  · decide

/-- Witness for the amended C2 at a freshly created `pbf` tileset. -/
theorem get_tile_absent_witness :
    formatsMime (pyTruthyStr (metaLookup tsPbf.metadata "format")) =
      .ok (some "application/x-protobuf") ∧
    tilesLookup tsPbf.tiles (0, 0, toStoredRow 0 0) = none ∧
    get_tile tsPbf { row := 0, column := 0, zoom := 0 } =
      .ok (some "application/x-protobuf", none) :=
  ⟨by decide, by decide,
    get_tile_absent tsPbf { row := 0, column := 0, zoom := 0 }
      (some "application/x-protobuf") (by decide) (by decide)⟩

/-- Claim C10: a stored record whose payload is the empty byte string reads
back as a null payload (`content and content[0] or None`), so at the
`get_tile` interface it is indistinguishable from the record being
absent. -/
theorem get_tile_empty_payload (ts : TilesetState) (coord : Coordinate)
    (h : tilesLookup ts.tiles
      (coord.zoom, coord.column, toStoredRow coord.row coord.zoom) = some []) :
    (∀ m, formatsMime (pyTruthyStr (metaLookup ts.metadata "format")) = .ok m →
      get_tile ts coord = .ok (m, none)) ∧
    get_tile ts coord = get_tile (eraseRecord ts coord) coord := by
  constructor
  · intro m hm
    simp only [get_tile]
    rw [hm, h]
    rfl
  · simp only [get_tile, eraseRecord]
    cases hfm : formatsMime (pyTruthyStr (metaLookup ts.metadata "format")) with
    | error e => rfl
    | ok m =>
        rw [h, tilesLookup_delete_self]
        rfl

/-- Witness for C10 at a `pbf` tileset holding an empty payload at
`(row 0, column 0, zoom 0)`. -/
theorem get_tile_empty_payload_witness :
    tilesLookup tsPbfEmptyTile.tiles (0, 0, toStoredRow 0 0) = some [] ∧
    get_tile tsPbfEmptyTile { row := 0, column := 0, zoom := 0 } =
      .ok (some "application/x-protobuf", none) :=
  ⟨by decide,
    (get_tile_empty_payload tsPbfEmptyTile
        { row := 0, column := 0, zoom := 0 } (by decide)).1
      (some "application/x-protobuf") (by decide)⟩

/-- Claim C1 as stated is false for the empty payload: after `put_tile` of the
empty byte string, `get_tile` reads the payload back as `None` (the
`content and content[0] or None` idiom), not as the stored empty
payload. -/
theorem put_get_roundtrip_empty_counterexample :
    (put_tile (some tsPbf) { row := 0, column := 0, zoom := 0 } []).bind
        (fun ts => get_tile ts { row := 0, column := 0, zoom := 0 }) =
      .ok (some "application/x-protobuf", none) ∧
    (put_tile (some tsPbf) { row := 0, column := 0, zoom := 0 } []).bind
        (fun ts => get_tile ts { row := 0, column := 0, zoom := 0 }) ≠
      .ok (some "application/x-protobuf", some []) := by
  constructor
  · decide
  · decide

/-- Claim C1 amended: for a tileset declaring a supported format, an in-range
coordinate and a NON-EMPTY payload, `put_tile` followed by `get_tile`
returns the payload together with the MIME type the FormatRegistry
table assigns to the declared format. -/
theorem put_get_roundtrip (ts : TilesetState) (coord : Coordinate) (f : String) (B : Bytes)
    (hf : metaLookup ts.metadata "format" = some f)
    (hsupp : f ∈ supportedFormats)
    (hrow0 : 0 ≤ coord.row) (hrow : coord.row < 2 ^ coord.zoom)
    (hcol0 : 0 ≤ coord.column) (hcol : coord.column < 2 ^ coord.zoom)
    (hB : B ≠ []) :
    ∃ ts', put_tile (some ts) coord B = .ok ts' ∧
      get_tile ts' coord = .ok (registryMime f, some B) := by
  obtain ⟨hne, hfm, -⟩ := supported_mime f hsupp
  refine ⟨_, rfl, ?_⟩
  simp only [get_tile, put_tile, openConn, commitConn, closeConn]
  rw [hf]
  simp only [pyTruthyStr, if_neg hne]
  rw [hfm]
  rw [tilesLookup_replace_self]
  simp [pyTruthyBytes, hB]

/-- Witness for the amended C1: the concrete scenario of the spec, with the
non-empty payload `[1, 2]` on a fresh `pbf` tileset. -/
theorem put_get_roundtrip_witness :
    metaLookup tsPbf.metadata "format" = some "pbf" ∧
    "pbf" ∈ supportedFormats ∧
    ([1, 2] : Bytes) ≠ [] ∧
    (∃ ts', put_tile (some tsPbf) { row := 0, column := 0, zoom := 0 } [1, 2] = .ok ts' ∧
      get_tile ts' { row := 0, column := 0, zoom := 0 } =
        .ok (some "application/x-protobuf", some [1, 2])) :=
  ⟨by decide, by decide, by decide,
    put_get_roundtrip tsPbf { row := 0, column := 0, zoom := 0 } "pbf" [1, 2]
      (by decide) (by decide) (by decide) (by decide) (by decide) (by decide)
      (by decide)⟩

/-- Claim C6: `create_tileset` rejects any format outside
`{png, jpg, json, pbf}` with the exception naming the offending token;
on success it writes the `name`, `type`, `version` and `description`
metadata plus the declared `format` (and `bounds` exactly when
supplied) and an empty tile table in which every composite key holds at
most one record. -/
theorem create_tileset_spec (name type_ version description format : String)
    (bounds : Option String) :
    (format ∉ supportedFormats →
      create_tileset name type_ version description format bounds =
        .error (.unsupportedFormat format)) ∧
    (∀ ts, create_tileset name type_ version description format bounds = .ok ts →
      format ∈ supportedFormats ∧
      metaLookup ts.metadata "name" = some name ∧
      metaLookup ts.metadata "type" = some type_ ∧
      metaLookup ts.metadata "version" = some version ∧
      metaLookup ts.metadata "description" = some description ∧
      metaLookup ts.metadata "format" = some format ∧
      metaLookup ts.metadata "bounds" = bounds ∧
      ts.tiles = [] ∧
      ∀ k, (ts.tiles.filter (fun r => decide (r.1 = k))).length ≤ 1) := by
  constructor
  · intro hnot
    unfold create_tileset
    rw [if_neg hnot]
  · intro ts hok
    unfold create_tileset at hok
    split at hok
    · cases hok
      refine ⟨by assumption, ?_, ?_, ?_, ?_, ?_, ?_, rfl, fun k => by simp⟩
      all_goals cases bounds <;> simp [metaLookup, List.find?]
    · exact absurd hok (by simp)

/-- Witness for C6: rejection of `gif`, and the metadata and empty tile
table of a successfully created `pbf` tileset. -/
theorem create_tileset_spec_witness :
    create_tileset "n" "t" "v" "d" "gif" none = .error (.unsupportedFormat "gif") ∧
    metaLookup tsPbf.metadata "format" = some "pbf" ∧
    metaLookup tsPbf.metadata "bounds" = none ∧
    tsPbf.tiles = [] :=
  ⟨(create_tileset_spec "n" "t" "v" "d" "gif" none).1 (by decide),
    ((create_tileset_spec "n" "baselayer" "0" "" "pbf" none).2 tsPbf
      (by decide)).2.2.2.2.2.1,
    ((create_tileset_spec "n" "baselayer" "0" "" "pbf" none).2 tsPbf
      (by decide)).2.2.2.2.2.2.1,
    ((create_tileset_spec "n" "baselayer" "0" "" "pbf" none).2 tsPbf
      (by decide)).2.2.2.2.2.2.2.1⟩

theorem reachable_format (ts : TilesetState) (h : Reachable ts) :
    ∃ f, f ∈ supportedFormats ∧ metaLookup ts.metadata "format" = some f := by
  induction h with
  | created name type_ version description format bounds ts hok =>
      refine ⟨format, ((create_tileset_spec name type_ version description format bounds).2
        ts hok).1, ((create_tileset_spec name type_ version description format bounds).2
        ts hok).2.2.2.2.2.1⟩
  | put ts coord content ts' hr hok ih =>
      cases hok
      exact ih
  | del ts coord hr ih =>
      exact ih

/-- Claim C7: on every tileset state reachable through the lifecycle of this
module, `get_tile` never returns a present payload with an absent
MIME type: whenever the returned payload is present, so is the MIME
type. -/
theorem get_tile_mime_present (ts : TilesetState) (h : Reachable ts)
    (coord : Coordinate) (m : Option String) (c : Option Bytes)
    (hget : get_tile ts coord = .ok (m, c)) (hc : c ≠ none) : m ≠ none := by
  obtain ⟨f, hsupp, hf⟩ := reachable_format ts h
  obtain ⟨hne, hfm, mm, hmm⟩ := supported_mime f hsupp
  simp only [get_tile] at hget
  rw [hf] at hget
  simp only [pyTruthyStr, if_neg hne] at hget
  rw [hfm] at hget
  simp only [Except.ok.injEq, Prod.mk.injEq] at hget
  rw [← hget.1, hmm]
  simp

/-- Witness for C7: a `pbf` tileset reachable by a create followed by a
put holds payload `[1, 2]`, and the returned MIME type is present. -/
theorem get_tile_mime_present_witness :
    get_tile tsPbfPut { row := 0, column := 0, zoom := 0 } =
      .ok (some "application/x-protobuf", some [1, 2]) ∧
    (some "application/x-protobuf" : Option String) ≠ none :=
  ⟨by decide,
    get_tile_mime_present tsPbfPut
      (Reachable.put tsPbf { row := 0, column := 0, zoom := 0 } [1, 2] tsPbfPut
        (Reachable.created "n" "baselayer" "0" "" "pbf" none tsPbf (by decide))
        (by decide))
      { row := 0, column := 0, zoom := 0 }
      (some "application/x-protobuf") (some [1, 2]) (by decide) (by decide)⟩

end PatchMBtiles
